import Mathlib

/-!
Shallow embedding of the request-execution core of the synapsai-python client
library (src/synapsai/client.py and src/synapsai/utils.py): the retry/backoff
policy, the error-classification policy, the request executor (blocking and
concurrent variants) and the server-sent-event stream decoder, together with
theorems settling the specified properties.

Machine conventions:
- Python dict/JSON values are modelled by the inductive type Json; the Python
  value None and the JSON literal null are the same object in the source
  (json.loads maps null to None), modelled by Json.null.
- json.loads and response.json are external collaborators (the json module);
  a parse is modelled as an oracle result: for a response, the field parsed
  (none = the parse raised JSONDecodeError); for the stream decoder, an
  injected parse function from payload strings to Option Json.
- The HTTP transport (httpx) is an external collaborator: one physical
  attempt is modelled by an AttemptOutcome (a completed response, or a raised
  exception tagged with its class), and a whole transport by a function from
  the 0-based attempt index to that attempt outcome.
- Delays are modelled over the rationals; random.uniform(0, 0.5) is an
  injected jitter argument constrained by hypotheses 0 <= j <= 1/2.
- Raising an exception is modelled by returning the raised value explicitly.
-/

/-- Python/JSON values as manipulated by the client (dicts are ordered
association lists with distinct keys, as Python dicts are). -/
inductive Json where
  | null
  | bool (b : Bool)
  | num (n : Int)
  | str (s : String)
  | arr (elems : List Json)
  | dict (kvs : List (String × Json))

/-- Python `d.get(k)` on a dict: first value bound to the key, if any. -/
def pyGet (kvs : List (String × Json)) (k : String) : Option Json :=
  (kvs.find? (fun p => p.1 == k)).map (fun p => p.2)

/-- Python truthiness of a value (empty containers, empty strings, zero,
False and None are falsy). -/
def truthy : Json → Bool
  | .null => false
  | .bool b => b
  | .num n => n != 0
  | .str s => s ≠ ""
  | .arr elems => !elems.isEmpty
  | .dict kvs => !kvs.isEmpty

/-- Python repr of a value, as used by str() on non-string values. -/
def pyRepr : Json → String
  | .null => "None"
  | .bool true => "True"
  | .bool false => "False"
  | .num n => toString n
  | .str s => "\x27" ++ s ++ "\x27"
  | .arr elems => "[" ++ pyReprList elems ++ "]"
  | .dict kvs => "\x7b" ++ pyReprPairs kvs ++ "\x7d"
where
  pyReprList : List Json → String
    | [] => ""
    | [v] => pyRepr v
    | v :: rest => pyRepr v ++ ", " ++ pyReprList rest
  pyReprPairs : List (String × Json) → String
    | [] => ""
    | [(k, v)] => "\x27" ++ k ++ "\x27: " ++ pyRepr v
    | (k, v) :: rest => "\x27" ++ k ++ "\x27: " ++ pyRepr v ++ ", " ++ pyReprPairs rest

/-- Python str() of a value: strings stay as they are, everything else as repr. -/
def pyStr : Json → String
  | .str s => s
  | v => pyRepr v

/-- Python `a or b`, where a is an optional lookup result (None when absent)
and b a fallback value: yields a when a is present and truthy, else b. -/
def pyOrJ (a : Option Json) (b : Json) : Json :=
  match a with
  | some v => if truthy v then v else b
  | none => b

/-- Whether a value is the Python None object (JSON null). -/
def Json.isNull : Json → Bool
  | .null => true
  | _ => false

/-- One completed HTTP response as the client observes it: status code, body
text, and the result of response.json() on that body (none when the body is
not parseable JSON, in which case response.json() raises). -/
structure Response where
  status : Nat
  text : String
  parsed : Option Json

/-- The value carried by a raised APIError (exceptions.py): message,
optional HTTP status code, optional response data (the client never passes
response_data, so it stays none). -/
structure APIErr where
  message : String
  status_code : Option Nat := none
  response_data : Option Json := none

/-- Class of an exception raised by one transport attempt. httpx timeout
exceptions are the only subclass the client distinguishes; anything that is
neither a RequestError nor a TimeoutException is some other exception type.
msg models str(exc). -/
inductive ExnTag where
  | requestError
  | timeoutException
  | otherException
deriving DecidableEq

/-- A raised exception: its class together with its rendered message str(e). -/
structure Exn where
  tag : ExnTag
  msg : String

/-- isinstance(exc, (httpx.RequestError, httpx.TimeoutException)). -/
def Exn.isHttpxError (e : Exn) : Bool :=
  e.tag = .requestError || e.tag = .timeoutException

/-- What can abort the try-block of BaseClient._handle_error_response:
the APIError raised on the structured-error path, or any other exception
(JSONDecodeError from response.json(), AttributeError from .get on a
non-dict); every one of these is caught by its except Exception clause. -/
inductive HandlerRaise where
  | apiError (e : APIErr)
  | otherExc

/-- The try-block of BaseClient._handle_error_response: either raises
(HandlerRaise, always caught by the handler) or completes having computed a
message string. Transcribed from client.py lines 104-118. -/
def errorBodyTry (response : Response) : Except HandlerRaise String :=
  match response.parsed with
  | none => .error .otherExc
  | some errorData =>
    match errorData with
    | .dict kvs =>
      if (pyGet kvs "error").isSome then
        match pyGet kvs "error" with
        | some (.dict errKvs) =>
          let message :=
            pyStr (pyOrJ (pyGet errKvs "message")
              (pyOrJ (pyGet errKvs "error") (.str (pyStr (.dict errKvs)))))
          -- raise APIError(message, status_code=response.status_code):
          -- raised inside the try-block, hence caught by except Exception
          .error (.apiError { message := message, status_code := some response.status })
        | some _ =>
          -- err.get("message") on a non-dict raises AttributeError
          .error .otherExc
        | none => .error .otherExc
      else
        -- error_data.get("error", default empty dict).get("message"):
        -- the key "error" is absent in this branch, so this lookup is None
        let nestedMsg : Option Json := none
        let message :=
          pyStr (pyOrJ nestedMsg
            (pyOrJ (pyGet kvs "message") (.str (pyStr (.dict kvs)))))
        .ok message
    | other => .ok (pyStr other)

/-- BaseClient._handle_error_response (client.py lines 103-121): always
raises an APIError; this embedding returns the raised value. The except
Exception clause replaces the message with the raw status-line fallback;
the final raise sits after the try/except. -/
def handle_error_response (response : Response) : APIErr :=
  match errorBodyTry response with
  | .error _ =>
    { message := "HTTP " ++ toString response.status ++ ": " ++ response.text
      status_code := some response.status }
  | .ok message =>
    { message := message, status_code := some response.status }

/-- BaseClient._should_retry (client.py lines 123-147). The method and
attempt arguments are accepted and unused, as in the source. -/
def should_retry (method : String) (response : Option Response)
    (exc : Option Exn) (attempt : Nat) : Bool :=
  match exc with
  | some e =>
    if e.isHttpxError then true else false
  | none =>
    match response with
    | some r =>
      if r.status == 429 then true
      else if 500 ≤ r.status ∧ r.status < 600 then true
      else false
    | none => false

/-- BaseClient._backoff_delay (client.py lines 149-160), with the
random.uniform(0, 0.5) draw passed in as the jitter argument. -/
def backoff_delay (attempt : Nat) (jitter : ℚ) : ℚ :=
  let base : ℚ := 1/2
  let delay := base * 2 ^ attempt
  let delay := delay + jitter
  min delay 30

/-- Python str.rstrip with a slash argument: drop every trailing slash. -/
def rstripSlash (s : String) : String :=
  ⟨(s.data.reverse.dropWhile (fun c => c = '/')).reverse⟩

/-- Python str.lstrip with a slash argument: drop every leading slash. -/
def lstripSlash (s : String) : String :=
  ⟨s.data.dropWhile (fun c => c = '/')⟩

/-- build_url (utils.py lines 19-32). -/
def build_url (base : String) (endpoint : String) : String :=
  let base := rstripSlash base
  let endpoint := lstripSlash endpoint
  base ++ "/" ++ endpoint

/-- One physical attempt as seen by SynapsAI._request: either the transport
returned a completed response, or it raised an exception. -/
inductive AttemptOutcome where
  | resp (r : Response)
  | raised (e : Exn)

/-- The terminal outcome of one logical call through the request executor:
a successful response, a raised APIError, or a raised non-httpx exception
that the executor does not catch. -/
inductive ReqResult where
  | success (r : Response)
  | apiError (e : APIErr)
  | uncaught (e : Exn)

/-- The retry loop of SynapsAI._request (client.py lines 227-270), blocking
variant. attempt is the 0-based attempt counter; fuel is the number of loop
iterations the while-condition attempt < max_retries still permits (the
executor enters with fuel = maxRetries); lastResponse and lastExc thread the
last observed outcome for the dead post-loop code. Besides the result it
returns the number of physical attempts made and the list of attempt indices
after which a backoff sleep time.sleep(self.backoff_delay(attempt)) ran. -/
def requestLoop (method : String) (maxRetries : Nat)
    (transport : Nat → AttemptOutcome) :
    Nat → Nat → Option Response → Option Exn → ReqResult × Nat × List Nat
  | _, 0, lastResponse, lastExc =>
    -- while-condition failed: the post-loop code of lines 265-270
    (match lastResponse with
     | some r => ReqResult.apiError (handle_error_response r)
     | none =>
       match lastExc with
       | some e => ReqResult.apiError { message := e.msg }
       | none => ReqResult.apiError { message := "Unknown error during request" },
     0, [])
  | attempt, fuel + 1, lastResponse, lastExc =>
    match transport attempt with
    | .resp response =>
      if response.status ≥ 400 then
        if should_retry method (some response) none attempt
            && decide (attempt < maxRetries - 1) then
          -- drain body, sleep backoff_delay attempt, retry
          let rest := requestLoop method maxRetries transport
            (attempt + 1) fuel (some response) lastExc
          (rest.1, rest.2.1 + 1, attempt :: rest.2.2)
        else
          (ReqResult.apiError (handle_error_response response), 1, [])
      else
        (ReqResult.success response, 1, [])
    | .raised e =>
      if e.isHttpxError then
        if should_retry method none (some e) attempt
            && decide (attempt < maxRetries - 1) then
          let rest := requestLoop method maxRetries transport
            (attempt + 1) fuel lastResponse (some e)
          (rest.1, rest.2.1 + 1, attempt :: rest.2.2)
        else
          (ReqResult.apiError { message := e.msg }, 1, [])
      else
        (ReqResult.uncaught e, 1, [])

/-- SynapsAI._request, blocking variant: run the retry loop from attempt 0
with the full budget. -/
def sync_request (method : String) (maxRetries : Nat)
    (transport : Nat → AttemptOutcome) : ReqResult × Nat × List Nat :=
  requestLoop method maxRetries transport 0 maxRetries none none

/-- The retry loop of AsyncSynapsAI._request (client.py lines 413-450),
concurrent variant; asyncio.sleep replaces time.sleep, the logic is
transcribed from the async source. -/
def asyncRequestLoop (method : String) (maxRetries : Nat)
    (transport : Nat → AttemptOutcome) :
    Nat → Nat → Option Response → Option Exn → ReqResult × Nat × List Nat
  | _, 0, lastResponse, lastExc =>
    (match lastResponse with
     | some r => ReqResult.apiError (handle_error_response r)
     | none =>
       match lastExc with
       | some e => ReqResult.apiError { message := e.msg }
       | none => ReqResult.apiError { message := "Unknown error during request" },
     0, [])
  | attempt, fuel + 1, lastResponse, lastExc =>
    match transport attempt with
    | .resp response =>
      if response.status ≥ 400 then
        if should_retry method (some response) none attempt
            && decide (attempt < maxRetries - 1) then
          let rest := asyncRequestLoop method maxRetries transport
            (attempt + 1) fuel (some response) lastExc
          (rest.1, rest.2.1 + 1, attempt :: rest.2.2)
        else
          (ReqResult.apiError (handle_error_response response), 1, [])
      else
        (ReqResult.success response, 1, [])
    | .raised e =>
      if e.isHttpxError then
        if should_retry method none (some e) attempt
            && decide (attempt < maxRetries - 1) then
          let rest := asyncRequestLoop method maxRetries transport
            (attempt + 1) fuel lastResponse (some e)
          (rest.1, rest.2.1 + 1, attempt :: rest.2.2)
        else
          (ReqResult.apiError { message := e.msg }, 1, [])
      else
        (ReqResult.uncaught e, 1, [])

/-- AsyncSynapsAI._request, concurrent variant. -/
def async_request (method : String) (maxRetries : Nat)
    (transport : Nat → AttemptOutcome) : ReqResult × Nat × List Nat :=
  asyncRequestLoop method maxRetries transport 0 maxRetries none none

/-- The line-decoding generator body shared by SynapsAI._stream_response
(client.py lines 327-344) and AsyncSynapsAI._stream_response (lines
507-521): given the json.loads oracle and the lines of an established
stream, returns the yielded events and the lines left unread when the
generator returns. -/
def decodeStream (parse : String → Option Json) :
    List String → List Json × List String
  | [] => ([], [])
  | l :: rest =>
    let line := l.trim
    if line = "" then
      decodeStream parse rest
    else if line.startsWith "data: " then
      let dataLine := line.drop 6
      if dataLine = "[DONE]" then
        ([], rest)
      else
        match parse dataLine with
        | some event =>
          let restRun := decodeStream parse rest
          (event :: restRun.1, restRun.2)
        | none =>
          -- json.JSONDecodeError: log a warning and continue
          decodeStream parse rest
    else
      decodeStream parse rest

/-- One attempt at establishing a stream: a response (with, once the status
is acceptable, its line iterator) or a raised exception. Line iteration
itself is modelled as exception-free: the finite list is the portion of the
stream the transport delivers. -/
inductive StreamAttempt where
  | resp (status : Nat) (text : String) (parsed : Option Json) (lines : List String)
  | raised (e : Exn)

/-- How a streaming call ends: normal completion (sentinel or natural end of
the source), a raised APIError, or an uncaught non-httpx exception. -/
inductive StreamResult where
  | done
  | apiError (e : APIErr)
  | uncaught (e : Exn)

/-- The establishment-retry loop of SynapsAI._stream_response (client.py
lines 309-355), blocking variant: returns the yielded events, the terminal
result, the number of establishment attempts, and the attempt indices after
which a backoff sleep ran. The except clause catches httpx errors without
consulting should_retry; a non-httpx exception propagates. -/
def streamLoop (maxRetries : Nat) (transport : Nat → StreamAttempt)
    (parse : String → Option Json) :
    Nat → Nat → List Json × StreamResult × Nat × List Nat
  | _, 0 =>
    ([], .apiError { message := "Failed to establish stream after retries" }, 0, [])
  | attempt, fuel + 1 =>
    match transport attempt with
    | .resp status text parsed lines =>
      if status ≥ 400 then
        if should_retry "POST" (some ⟨status, text, parsed⟩) none attempt
            && decide (attempt < maxRetries - 1) then
          let rest := streamLoop maxRetries transport parse (attempt + 1) fuel
          (rest.1, rest.2.1, rest.2.2.1 + 1, attempt :: rest.2.2.2)
        else
          ([], .apiError (handle_error_response ⟨status, text, parsed⟩), 1, [])
      else
        -- stream established: iterate lines and yield, then return
        ((decodeStream parse lines).1, .done, 1, [])
    | .raised e =>
      if e.isHttpxError then
        if decide (attempt < maxRetries - 1) then
          let rest := streamLoop maxRetries transport parse (attempt + 1) fuel
          (rest.1, rest.2.1, rest.2.2.1 + 1, attempt :: rest.2.2.2)
        else
          ([], .apiError { message := e.msg }, 1, [])
      else
        ([], .uncaught e, 1, [])

/-- SynapsAI._stream_response, blocking variant, from attempt 0. -/
def sync_stream (maxRetries : Nat) (transport : Nat → StreamAttempt)
    (parse : String → Option Json) : List Json × StreamResult × Nat × List Nat :=
  streamLoop maxRetries transport parse 0 maxRetries

/-- The establishment-retry loop of AsyncSynapsAI._stream_response
(client.py lines 490-531), concurrent variant, transcribed from the async
source. -/
def asyncStreamLoop (maxRetries : Nat) (transport : Nat → StreamAttempt)
    (parse : String → Option Json) :
    Nat → Nat → List Json × StreamResult × Nat × List Nat
  | _, 0 =>
    ([], .apiError { message := "Failed to establish stream after retries" }, 0, [])
  | attempt, fuel + 1 =>
    match transport attempt with
    | .resp status text parsed lines =>
      if status ≥ 400 then
        if should_retry "POST" (some ⟨status, text, parsed⟩) none attempt
            && decide (attempt < maxRetries - 1) then
          let rest := asyncStreamLoop maxRetries transport parse (attempt + 1) fuel
          (rest.1, rest.2.1, rest.2.2.1 + 1, attempt :: rest.2.2.2)
        else
          ([], .apiError (handle_error_response ⟨status, text, parsed⟩), 1, [])
      else
        ((decodeStream parse lines).1, .done, 1, [])
    | .raised e =>
      if e.isHttpxError then
        if decide (attempt < maxRetries - 1) then
          let rest := asyncStreamLoop maxRetries transport parse (attempt + 1) fuel
          (rest.1, rest.2.1, rest.2.2.1 + 1, attempt :: rest.2.2.2)
        else
          ([], .apiError { message := e.msg }, 1, [])
      else
        ([], .uncaught e, 1, [])

/-- AsyncSynapsAI._stream_response, concurrent variant, from attempt 0. -/
def async_stream (maxRetries : Nat) (transport : Nat → StreamAttempt)
    (parse : String → Option Json) : List Json × StreamResult × Nat × List Nat :=
  asyncStreamLoop maxRetries transport parse 0 maxRetries

/-- URL of every non-streaming request, both variants (client.py lines 208
and 398): build_url(self.base_url, endpoint). -/
def request_url (base_url : String) (endpoint : String) : String :=
  build_url base_url endpoint

/-- URL of a blocking streaming request (client.py line 299):
self.base_url + endpoint, plain concatenation. -/
def sync_stream_url (base_url : String) (endpoint : String) : String :=
  base_url ++ endpoint

/-- URL of a concurrent streaming request (client.py line 479):
build_url(self.base_url, endpoint). -/
def async_stream_url (base_url : String) (endpoint : String) : String :=
  build_url base_url endpoint

/-- Default base endpoint (client.py line 70). -/
def default_base_url : String := "https://api.synapsai.cloud/v1"

/-- Default headers built at construction (client.py lines 80-84). -/
def default_headers (api_key : String) : List (String × String) :=
  [("Content-Type", "application/json"),
   ("User-Agent", "synapsai-python/1.0.0"),
   ("Authorization", "Bearer " ++ api_key)]

/-- Python dict assignment d[k] = v on an ordered association dict:
replace in place when the key exists, else append. -/
def dictSet (d : List (String × String)) (k v : String) : List (String × String) :=
  if d.any (fun p => p.1 == k) then
    d.map (fun p => if p.1 == k then (k, v) else p)
  else
    d ++ [(k, v)]

/-- Python dict.update: fold the updates over the dict, caller values win. -/
def dictUpdate (d : List (String × String)) (updates : List (String × String)) :
    List (String × String) :=
  updates.foldl (fun acc p => dictSet acc p.1 p.2) d

/-- max(1, int(max_retries)) (client.py line 77). -/
def clamp_retries (max_retries : Int) : Nat :=
  (max 1 max_retries).toNat

/-- The configuration a successfully constructed client holds. -/
structure ClientConfig where
  api_key : String
  base_url : String
  timeout : ℚ
  max_retries : Nat
  headers : List (String × String)

/-- The exception construction can raise. -/
inductive InitError where
  | authenticationError (message : String)

/-- BaseClient constructor (client.py lines 38-89): resolves the credential
from the argument with an environment fallback, fails with an
AuthenticationError when neither is present, resolves the base URL from
argument, environment or default, strips its trailing slashes, clamps the
retry budget and merges headers. It is a pure function of its arguments and
the two environment lookups: no transport is consulted, so construction
performs no network call on any path. -/
def base_client_init (api_key : Option String) (env_api_key : Option String)
    (base_url : Option String) (env_base_url : Option String)
    (timeout : ℚ) (max_retries : Int)
    (headers : Option (List (String × String))) : Except InitError ClientConfig :=
  let api_key := match api_key with
    | none => env_api_key
    | some k => some k
  match api_key with
  | none =>
    .error (.authenticationError
      ("No API key provided. You can set your API key in an environment " ++
       "variable SYNAPSAI_API_KEY, or you can pass it as an argument " ++
       "SynapsAI(api_key=...)."))
  | some key =>
    let base_url := match base_url with
      | none => env_base_url
      | some b => some b
    let base_url := match base_url with
      | none => default_base_url
      | some b => b
    .ok {
      api_key := key
      base_url := rstripSlash base_url
      timeout := timeout
      max_retries := clamp_retries max_retries
      headers := dictUpdate (default_headers key) (headers.getD [])
    }

/-- A payload dict argument to the request executor (json_data, data, files):
Python None or a dict. -/
def PyDict : Type := List (String × Json)

/-- Python truthiness of an optional dict argument: None and the empty dict
are falsy. -/
def truthyDict : Option PyDict → Bool
  | none => false
  | some d => !d.isEmpty

/-- The keyword arguments one attempt passes to the httpx transport; an
Option field being none means the key is absent from the kwargs dict. -/
structure RequestKwargs where
  method : String
  url : String
  timeout : ℚ
  json : Option PyDict := none
  data : Option PyDict := none
  files : Option PyDict := none
  stream : Bool := false

/-- The base_kwargs construction of SynapsAI._request (client.py lines
211-225): a falsy json_data, data or files argument attaches no such key;
the stream key is attached only when requested. -/
def sync_base_kwargs (method : String) (url : String) (timeout : ℚ)
    (json_data : Option PyDict) (data : Option PyDict) (files : Option PyDict)
    (stream : Bool) : RequestKwargs :=
  let k0 : RequestKwargs := { method := method, url := url, timeout := timeout }
  let k1 := if truthyDict json_data then { k0 with json := json_data } else k0
  let k2 := if truthyDict data then { k1 with data := data } else k1
  let k3 := if truthyDict files then { k2 with files := files } else k2
  if stream then { k3 with stream := true } else k3

/-- The base_kwargs construction of AsyncSynapsAI._request (client.py lines
400-411): as the blocking variant, without a stream key. -/
def async_base_kwargs (method : String) (url : String) (timeout : ℚ)
    (json_data : Option PyDict) (data : Option PyDict) (files : Option PyDict) :
    RequestKwargs :=
  let k0 : RequestKwargs := { method := method, url := url, timeout := timeout }
  let k1 := if truthyDict json_data then { k0 with json := json_data } else k0
  let k2 := if truthyDict data then { k1 with data := data } else k1
  if truthyDict files then { k2 with files := files } else k2

/-- BaseClient._build_request (client.py lines 91-101): keep exactly the
keyword entries whose value is not None. -/
def build_request (kwargs : List (String × Json)) : List (String × Json) :=
  kwargs.filter (fun p => !p.2.isNull)

/-- The spec taxonomy of TypedError kinds. -/
inductive ErrorKind where
  | authentication
  | rateLimit
  | serverError
  | validation
  | transport
  | unknown
deriving DecidableEq

/-- Modelled from the spec (section 7): the kind denoted by an HTTP status
code: 401/403 map to Authentication, 429 to RateLimit, 5xx to ServerError,
anything else to Unknown. -/
def statusKind (s : Nat) : ErrorKind :=
  if s = 401 ∨ s = 403 then .authentication
  else if s = 429 then .rateLimit
  else if 500 ≤ s ∧ s < 600 then .serverError
  else .unknown

/-- Modelled from the spec (section 7): the kind denoted by a raised
APIError: classified by the carried status code when one is present; an
error raised with no status code comes from the transport-exception paths
and denotes a Transport error. -/
def errKind (e : APIErr) : ErrorKind :=
  match e.status_code with
  | none => .transport
  | some s => statusKind s

/-- Whether a stream line is the terminal sentinel frame: its trimmed text
carries the data marker and the payload after the 6-character marker is the
literal [DONE]. -/
def is_done_line (l : String) : Bool :=
  l.trim.startsWith "data: " && l.trim.drop 6 == "[DONE]"

/-- The event a single non-sentinel line contributes: the parse of the
payload of a trimmed data-marked line, none for blank lines, other protocol
lines, the sentinel and malformed payloads. -/
def event_of (parse : String → Option Json) (l : String) : Option Json :=
  let line := l.trim
  if line.startsWith "data: " && !(line.drop 6 == "[DONE]") then
    parse (line.drop 6)
  else
    none

/-- Both outcomes of the handler carry the status code of the response. -/
theorem handle_error_response_status (r : Response) :
    (handle_error_response r).status_code = some r.status := by
  unfold handle_error_response
  cases errorBodyTry r <;> rfl

/-- The classifier retries a completed response exactly on 429 and 5xx. -/
theorem should_retry_resp (method : String) (r : Response) (attempt : Nat) :
    should_retry method (some r) none attempt = true ↔
      (r.status = 429 ∨ (500 ≤ r.status ∧ r.status < 600)) := by
  unfold should_retry
  by_cases h429 : r.status = 429 <;>
    by_cases h5 : 500 ≤ r.status ∧ r.status < 600 <;>
      simp [h429, h5]

/-- The classifier retries a raised exception exactly when it is an httpx
transport error (RequestError or TimeoutException). -/
theorem should_retry_exc (method : String) (resp : Option Response) (e : Exn)
    (attempt : Nat) :
    should_retry method resp (some e) attempt = true ↔
      (e.tag = .requestError ∨ e.tag = .timeoutException) := by
  unfold should_retry Exn.isHttpxError
  by_cases h : e.tag = .requestError ∨ e.tag = .timeoutException <;> simp_all

/-- The retry loop never makes more attempts than it has fuel for. -/
theorem requestLoop_attempts_le (method : String) (mr : Nat)
    (t : Nat → AttemptOutcome) :
    ∀ fuel attempt lr le, (requestLoop method mr t attempt fuel lr le).2.1 ≤ fuel := by
  intro fuel
  induction fuel with
  | zero =>
    intro attempt lr le
    simp [requestLoop]
  | succ f ih =>
    intro attempt lr le
    simp only [requestLoop]
    cases t attempt with
    | resp r =>
      by_cases h4 : r.status ≥ 400 <;> simp only [h4, if_true, if_false]
      · split
        · exact Nat.succ_le_succ (ih (attempt + 1) (some r) le)
        · exact Nat.succ_le_succ (Nat.zero_le f)
      · exact Nat.succ_le_succ (Nat.zero_le f)
    | raised e =>
      by_cases hh : e.isHttpxError = true <;> simp only [hh, if_true, if_false]
      · split
        · exact Nat.succ_le_succ (ih (attempt + 1) lr (some e))
        · exact Nat.succ_le_succ (Nat.zero_le f)
      · exact Nat.succ_le_succ (Nat.zero_le f)

/-- With fuel left, the retry loop makes at least one attempt. -/
theorem requestLoop_attempts_pos (method : String) (mr : Nat)
    (t : Nat → AttemptOutcome) (fuel attempt : Nat)
    (lr : Option Response) (le : Option Exn) (h : 1 ≤ fuel) :
    1 ≤ (requestLoop method mr t attempt fuel lr le).2.1 := by
  cases fuel with
  | zero => omega
  | succ f =>
    simp only [requestLoop]
    cases t attempt with
    | resp r =>
      by_cases h4 : r.status ≥ 400 <;> simp only [h4, if_true, if_false]
      · split <;> simp
      · simp
    | raised e =>
      by_cases hh : e.isHttpxError = true <;> simp only [hh, if_true, if_false]
      · split <;> simp
      · simp

/-- One unfolding step of the retry loop: a retryable failed response with
budget left drains the body, sleeps and loops with the attempt counter
advanced. -/
theorem requestLoop_succ_resp_retry (method : String) (mr : Nat)
    (t : Nat → AttemptOutcome) (attempt f : Nat) (lr : Option Response)
    (le : Option Exn) (r : Response) (ht : t attempt = .resp r)
    (h4 : r.status ≥ 400)
    (hsr : should_retry method (some r) none attempt = true)
    (hc : attempt < mr - 1) :
    requestLoop method mr t attempt (f + 1) lr le
      = ((requestLoop method mr t (attempt + 1) f (some r) le).1,
         (requestLoop method mr t (attempt + 1) f (some r) le).2.1 + 1,
         attempt :: (requestLoop method mr t (attempt + 1) f (some r) le).2.2) := by
  simp [requestLoop, ht, h4, hsr, hc]

/-- One unfolding step of the retry loop: a raised httpx error with budget
left sleeps and loops with the attempt counter advanced. -/
theorem requestLoop_succ_exn_retry (method : String) (mr : Nat)
    (t : Nat → AttemptOutcome) (attempt f : Nat) (lr : Option Response)
    (le : Option Exn) (e : Exn) (ht : t attempt = .raised e)
    (he : e.isHttpxError = true) (hc : attempt < mr - 1) :
    requestLoop method mr t attempt (f + 1) lr le
      = ((requestLoop method mr t (attempt + 1) f lr (some e)).1,
         (requestLoop method mr t (attempt + 1) f lr (some e)).2.1 + 1,
         attempt :: (requestLoop method mr t (attempt + 1) f lr (some e)).2.2) := by
  have hsr : should_retry method none (some e) attempt = true := by
    simp [should_retry, he]
  simp [requestLoop, ht, he, hsr, hc]

/-- On a transport that answers every attempt with the same retryable
failed response, the loop spends its whole remaining budget: one attempt per
unit of fuel, a backoff sleep after each attempt but the last, and the
mapped error of that response at the end. -/
theorem requestLoop_const_resp (method : String) (mr : Nat) (r : Response)
    (hret : r.status = 429 ∨ (500 ≤ r.status ∧ r.status < 600)) :
    ∀ fuel attempt lr le, attempt + fuel = mr → 1 ≤ fuel →
      requestLoop method mr (fun _ => .resp r) attempt fuel lr le
        = (.apiError (handle_error_response r), fuel, List.range' attempt (fuel - 1)) := by
  have h4 : r.status ≥ 400 := by rcases hret with h | h <;> omega
  intro fuel
  induction fuel with
  | zero => intro attempt lr le hinv h1; omega
  | succ f ih =>
    intro attempt lr le hinv h1
    have hsr : should_retry method (some r) none attempt = true :=
      (should_retry_resp method r attempt).mpr hret
    cases f with
    | zero =>
      have hc : ¬ (attempt < mr - 1) := by omega
      simp [requestLoop, h4, hsr, hc]
    | succ s =>
      have hc : attempt < mr - 1 := by omega
      have hrec := ih (attempt + 1) (some r) le (by omega) (by omega)
      rw [requestLoop_succ_resp_retry method mr _ attempt (s + 1) lr le r rfl h4 hsr hc,
        hrec]
      simp [List.range'_succ]

/-- On a transport that raises the same httpx-level exception at every
attempt, the loop spends its whole remaining budget and ends with an
APIError carrying the rendered exception and no status code. -/
theorem requestLoop_const_exn (method : String) (mr : Nat) (e : Exn)
    (he : e.isHttpxError = true) :
    ∀ fuel attempt lr le, attempt + fuel = mr → 1 ≤ fuel →
      requestLoop method mr (fun _ => .raised e) attempt fuel lr le
        = (.apiError { message := e.msg }, fuel, List.range' attempt (fuel - 1)) := by
  have hsr : ∀ attempt, should_retry method none (some e) attempt = true := by
    intro attempt
    refine (should_retry_exc method none e attempt).mpr ?_
    unfold Exn.isHttpxError at he
    rcases Bool.or_eq_true_iff.mp he with h | h
    · exact Or.inl (by simpa using h)
    · exact Or.inr (by simpa using h)
  intro fuel
  induction fuel with
  | zero => intro attempt lr le hinv h1; omega
  | succ f ih =>
    intro attempt lr le hinv h1
    cases f with
    | zero =>
      have hc : ¬ (attempt < mr - 1) := by omega
      simp [requestLoop, he, hsr, hc]
    | succ s =>
      have hc : attempt < mr - 1 := by omega
      have hrec := ih (attempt + 1) lr (some e) (by omega) (by omega)
      rw [requestLoop_succ_exn_retry method mr _ attempt (s + 1) lr le e rfl he hc,
        hrec]
      simp [List.range'_succ]

/-- A failed response the classifier does not retry is mapped to its error
immediately: one attempt, no sleep. -/
theorem requestLoop_resp_no_retry (method : String) (mr : Nat) (r : Response)
    (h4 : 400 ≤ r.status)
    (hnr : ¬ (r.status = 429 ∨ (500 ≤ r.status ∧ r.status < 600))) :
    ∀ f attempt lr le,
      requestLoop method mr (fun _ => .resp r) attempt (f + 1) lr le
        = (.apiError (handle_error_response r), 1, []) := by
  intro f attempt lr le
  have hsr : should_retry method (some r) none attempt = false := by
    rw [← Bool.not_eq_true]
    exact fun hc => hnr ((should_retry_resp method r attempt).mp hc)
  simp [requestLoop, h4, hsr]

/-- C2: for every outcome of one attempt, the retry classifier returns true
exactly when the outcome is a transport-level failure (network error or
timeout exception) or an HTTP failure with status 429 or in [500, 600); it
returns false for every other exception and every other status, including
400 and 404. -/
theorem spec_C2_retry_classifier :
    ∀ (method : String) (attempt : Nat) (r : Response) (e : Exn),
      (should_retry method none (some e) attempt = true
        ↔ (e.tag = .requestError ∨ e.tag = .timeoutException))
    ∧ (should_retry method (some r) none attempt = true
        ↔ (r.status = 429 ∨ (500 ≤ r.status ∧ r.status < 600)))
    ∧ (should_retry method (some r) (some e) attempt = true
        ↔ (e.tag = .requestError ∨ e.tag = .timeoutException))
    ∧ should_retry method none none attempt = false
    ∧ should_retry method (some { r with status := 400 }) none attempt = false
    ∧ should_retry method (some { r with status := 404 }) none attempt = false := by
  intro method attempt r e
  refine ⟨should_retry_exc method none e attempt,
    should_retry_resp method r attempt,
    should_retry_exc method (some r) e attempt, rfl, ?_, ?_⟩ <;>
  · rw [Bool.eq_false_iff, Ne, should_retry_resp]
    simp

/-- C8: the backoff delay for 0-based attempt a with jitter j drawn from
uniform_random(0, 0.5) equals min(0.5 * 2^a + j, 30.0); it lies in [0, 30],
and its jitter-free base component is monotone in a up to the cap. -/
theorem spec_C8_backoff :
    ∀ (a : Nat) (j : ℚ), 0 ≤ j → j ≤ 1/2 →
      backoff_delay a j = min ((1/2 : ℚ) * 2 ^ a + j) 30
    ∧ 0 ≤ backoff_delay a j
    ∧ backoff_delay a j ≤ 30
    ∧ (∀ b : Nat, a ≤ b →
        min ((1/2 : ℚ) * 2 ^ a) 30 ≤ min ((1/2 : ℚ) * 2 ^ b) 30) := by
  intro a j hj0 hj
  refine ⟨rfl, ?_, ?_, ?_⟩
  · unfold backoff_delay
    refine le_min (add_nonneg (by positivity) hj0) (by norm_num)
  · exact min_le_right _ _
  · intro b hab
    refine min_le_min ?_ le_rfl
    refine mul_le_mul_of_nonneg_left ?_ (by norm_num)
    exact pow_le_pow_right₀ (by norm_num) hab

theorem spec_C8_backoff_witness :
    (0 ≤ (1/4 : ℚ)) ∧ ((1/4 : ℚ) ≤ 1/2)
  ∧ (backoff_delay 3 (1/4) = min ((1/2 : ℚ) * 2 ^ 3 + 1/4) 30
     ∧ 0 ≤ backoff_delay 3 (1/4)
     ∧ backoff_delay 3 (1/4) ≤ 30
     ∧ (∀ b : Nat, 3 ≤ b →
         min ((1/2 : ℚ) * 2 ^ 3) 30 ≤ min ((1/2 : ℚ) * 2 ^ b) 30)) :=
  ⟨by norm_num, by norm_num, spec_C8_backoff 3 (1/4) (by norm_num) (by norm_num)⟩

/-- C1: every logical call makes between 1 and max_retries physical
attempts (the budget is clamped to at least 1 at construction); on three
consecutive 503 responses with max_retries = 3, the executor attempts
exactly 3 times, sleeps exactly after attempts 0 and 1, makes no fourth
attempt, and fails with an APIError denoting a ServerError. -/
theorem spec_C1_retry_budget :
    (∀ max_retries : Int, 1 ≤ clamp_retries max_retries)
  ∧ (∀ (method : String) (mr : Nat) (t : Nat → AttemptOutcome), 1 ≤ mr →
      1 ≤ (sync_request method mr t).2.1 ∧ (sync_request method mr t).2.1 ≤ mr)
  ∧ (∀ r : Response, r.status = 503 →
      sync_request "POST" 3 (fun _ => AttemptOutcome.resp r)
        = (.apiError (handle_error_response r), 3, [0, 1])
      ∧ errKind (handle_error_response r) = .serverError) := by
  refine ⟨?_, ?_, ?_⟩
  · intro mrArg
    unfold clamp_retries
    have h := le_max_left 1 mrArg
    omega
  · intro method mr t h
    exact ⟨requestLoop_attempts_pos method mr t mr 0 none none h,
           requestLoop_attempts_le method mr t mr 0 none none⟩
  · intro r h503
    have hret : r.status = 429 ∨ (500 ≤ r.status ∧ r.status < 600) := by omega
    have hrun := requestLoop_const_resp "POST" 3 r hret 3 0 none none
      (by omega) (by omega)
    constructor
    · unfold sync_request
      rw [hrun]
      norm_num [List.range']
    · have hst := handle_error_response_status r
      simp [errKind, hst, h503, statusKind]

theorem spec_C1_retry_budget_witness :
    (1 ≤ clamp_retries 0)
  ∧ ((1 : Nat) ≤ 2)
  ∧ (1 ≤ (sync_request "GET" 2 (fun _ => AttemptOutcome.resp ⟨200, "ok", none⟩)).2.1
     ∧ (sync_request "GET" 2 (fun _ => AttemptOutcome.resp ⟨200, "ok", none⟩)).2.1 ≤ 2)
  ∧ ((⟨503, "Service Unavailable", none⟩ : Response).status = 503)
  ∧ (sync_request "POST" 3 (fun _ => AttemptOutcome.resp ⟨503, "Service Unavailable", none⟩)
       = (.apiError (handle_error_response ⟨503, "Service Unavailable", none⟩), 3, [0, 1])
     ∧ errKind (handle_error_response ⟨503, "Service Unavailable", none⟩) = .serverError) :=
  ⟨spec_C1_retry_budget.1 0, by decide,
   spec_C1_retry_budget.2.1 "GET" 2 (fun _ => AttemptOutcome.resp ⟨200, "ok", none⟩) (by decide),
   rfl,
   spec_C1_retry_budget.2.2 ⟨503, "Service Unavailable", none⟩ rfl⟩

/-- C5: a failed call that exhausts retries or is non-retryable raises an
APIError carrying the terminal HTTP status, whose spec-taxonomy kind is the
status table (401/403 Authentication, 429 RateLimit, 5xx ServerError, other
Unknown); a transport-level exception raises an APIError with no status
code, which the taxonomy classifies as Transport regardless of status. -/
theorem spec_C5_error_kinds :
    (∀ (method : String) (mr s : Nat) (text : String) (parsed : Option Json),
      1 ≤ mr → 400 ≤ s →
      ∃ e n sleeps,
        sync_request method mr (fun _ => AttemptOutcome.resp ⟨s, text, parsed⟩)
          = (.apiError e, n, sleeps)
        ∧ e.status_code = some s ∧ errKind e = statusKind s)
  ∧ (∀ (method : String) (mr : Nat) (e : Exn), 1 ≤ mr → e.isHttpxError = true →
      sync_request method mr (fun _ => AttemptOutcome.raised e)
        = (.apiError { message := e.msg }, mr, List.range' 0 (mr - 1))
      ∧ errKind { message := e.msg } = ErrorKind.transport) := by
  constructor
  · intro method mr s text parsed h1 h400
    by_cases hret : s = 429 ∨ (500 ≤ s ∧ s < 600)
    · refine ⟨handle_error_response ⟨s, text, parsed⟩, mr, List.range' 0 (mr - 1), ?_, ?_, ?_⟩
      · unfold sync_request
        exact requestLoop_const_resp method mr ⟨s, text, parsed⟩ hret mr 0 none none
          (by omega) h1
      · exact handle_error_response_status _
      · simp [errKind, handle_error_response_status]
    · obtain ⟨f, rfl⟩ : ∃ f, mr = f + 1 := ⟨mr - 1, by omega⟩
      refine ⟨handle_error_response ⟨s, text, parsed⟩, 1, [], ?_, ?_, ?_⟩
      · unfold sync_request
        exact requestLoop_resp_no_retry method (f + 1) ⟨s, text, parsed⟩ h400 hret f 0 none none
      · exact handle_error_response_status _
      · simp [errKind, handle_error_response_status]
  · intro method mr e h1 he
    constructor
    · unfold sync_request
      exact requestLoop_const_exn method mr e he mr 0 none none (by omega) h1
    · rfl

theorem spec_C5_error_kinds_witness :
    ((1 : Nat) ≤ 2) ∧ ((400 : Nat) ≤ 404)
  ∧ (∃ e n sleeps,
      sync_request "GET" 2 (fun _ => AttemptOutcome.resp ⟨404, "not found", none⟩)
        = (.apiError e, n, sleeps)
      ∧ e.status_code = some 404 ∧ errKind e = statusKind 404)
  ∧ (Exn.isHttpxError ⟨.timeoutException, "timed out"⟩ = true)
  ∧ (sync_request "GET" 2 (fun _ => AttemptOutcome.raised ⟨.timeoutException, "timed out"⟩)
       = (.apiError { message := "timed out" }, 2, List.range' 0 1)
     ∧ errKind { message := "timed out" } = ErrorKind.transport) :=
  ⟨by decide, by decide,
   spec_C5_error_kinds.1 "GET" 2 404 "not found" none (by decide) (by decide),
   by decide,
   spec_C5_error_kinds.2 "GET" 2 ⟨.timeoutException, "timed out"⟩ (by decide) (by decide)⟩

/-- C3: the stream decoder yields, in input order, exactly the
successfully-parsed payloads of the lines whose trimmed text carries the
6-character data marker, skipping blank lines, other protocol lines and
malformed payloads, and stops at the first [DONE] payload leaving every
later line unread; with no sentinel it ends normally with nothing unread. -/
theorem spec_C3_stream_decoder :
    ∀ (parse : String → Option Json) (lines : List String),
      decodeStream parse lines
        = ((lines.takeWhile (fun l => !is_done_line l)).filterMap (event_of parse),
           (lines.dropWhile (fun l => !is_done_line l)).tail) := by
  intro parse lines
  induction lines with
  | nil => rfl
  | cons l rest ih =>
    by_cases he : l.trim = ""
    · have hs : l.trim.startsWith "data: " = false := by rw [he]; rfl
      have hd : is_done_line l = false := by simp [is_done_line, hs]
      have hev : event_of parse l = none := by simp [event_of, hs]
      simp [decodeStream, he, hd, hev, ih]
    · by_cases hs : l.trim.startsWith "data: " = true
      · by_cases hdone : l.trim.drop 6 = "[DONE]"
        · have hd : is_done_line l = true := by
            simp [is_done_line, hs, hdone]
          simp [decodeStream, he, hs, hdone, hd]
        · have hd : is_done_line l = false := by
            simp [is_done_line, hs, hdone]
          have hev : event_of parse l = parse (l.trim.drop 6) := by
            simp [event_of, hs, hdone]
          cases hp : parse (l.trim.drop 6) with
          | some v => simp [decodeStream, he, hs, hdone, hp, hd, hev, ih]
          | none => simp [decodeStream, he, hs, hdone, hp, hd, hev, ih]
      · have hd : is_done_line l = false := by simp [is_done_line, hs]
        have hev : event_of parse l = none := by simp [event_of, hs]
        simp [decodeStream, he, hs, hd, hev, ih]

/-- C4: on a response whose body parses to a structured error object, the
error mapper is specified to use the structured message; the code instead
raises the structured APIError inside its own try-block, catches it in
except Exception, and degrades to the raw status-line fallback message. -/
theorem spec_C4_error_mapper_bug :
    handle_error_response
        { status := 500,
          text := "\x7b\"error\": \x7b\"message\": \"boom\"\x7d\x7d",
          parsed := some (.dict [("error", .dict [("message", .str "boom")])]) }
      = { message := "HTTP 500: \x7b\"error\": \x7b\"message\": \"boom\"\x7d\x7d",
          status_code := some 500 }
    ∧ (handle_error_response
        { status := 500,
          text := "\x7b\"error\": \x7b\"message\": \"boom\"\x7d\x7d",
          parsed := some (.dict [("error", .dict [("message", .str "boom")])]) }).message
      ≠ "boom" := by
  constructor
  · rfl
  · decide

/-- The blocking and concurrent retry loops compute identically. -/
theorem requestLoop_eq_async (method : String) (mr : Nat)
    (t : Nat → AttemptOutcome) :
    ∀ fuel attempt lr le,
      requestLoop method mr t attempt fuel lr le
        = asyncRequestLoop method mr t attempt fuel lr le := by
  intro fuel
  induction fuel with
  | zero => intro attempt lr le; rfl
  | succ f ih =>
    intro attempt lr le
    simp only [requestLoop, asyncRequestLoop]
    cases t attempt with
    | resp r =>
      by_cases h4 : r.status ≥ 400 <;> simp only [h4, if_true, if_false]
      · by_cases hc : (should_retry method (some r) none attempt
            && decide (attempt < mr - 1)) = true <;>
          simp only [hc, if_true, if_false, Bool.and_eq_true, decide_eq_true_eq] at * <;>
          simp [ih, hc]
    | raised e =>
      by_cases hh : e.isHttpxError = true <;> simp only [hh, if_true, if_false]
      · by_cases hc : (should_retry method none (some e) attempt
            && decide (attempt < mr - 1)) = true <;>
          simp only [hc, if_true, if_false, Bool.and_eq_true, decide_eq_true_eq] at * <;>
          simp [ih, hc]
      · simp

/-- The blocking and concurrent stream-establishment loops compute
identically. -/
theorem streamLoop_eq_async (mr : Nat) (t : Nat → StreamAttempt)
    (parse : String → Option Json) :
    ∀ fuel attempt,
      streamLoop mr t parse attempt fuel = asyncStreamLoop mr t parse attempt fuel := by
  intro fuel
  induction fuel with
  | zero => intro attempt; rfl
  | succ f ih =>
    intro attempt
    simp only [streamLoop, asyncStreamLoop]
    cases t attempt with
    | resp status text parsed lines =>
      by_cases h4 : status ≥ 400 <;> simp only [h4, if_true, if_false]
      · by_cases hc : (should_retry "POST" (some ⟨status, text, parsed⟩) none attempt
            && decide (attempt < mr - 1)) = true <;>
          simp only [hc, if_true, if_false] <;>
          simp [ih]
    | raised e =>
      by_cases hh : e.isHttpxError = true <;> simp only [hh, if_true, if_false]
      · by_cases hc : attempt < mr - 1 <;> simp [hc, ih]
      · simp

/-- Appending to a fixed string on the left is injective. -/
theorem string_append_right_inj (a s t : String) : a ++ s = a ++ t ↔ s = t := by
  constructor
  · intro h
    have h2 := congrArg String.data h
    simp only [String.data_append] at h2
    cases s with
    | mk ds =>
      cases t with
      | mk dt => exact congrArg String.mk (List.append_cancel_left h2)
  · intro h; rw [h]

/-- C6: build_url joins base and endpoint with exactly one slash and is
what non-streaming requests (both variants, client.py lines 208 and 398)
and the concurrent streaming request (line 479) use; the blocking
streaming request (line 299) instead concatenates base and endpoint
directly, and on the URL the chat resource actually requests the
separating slash is missing entirely. -/
theorem spec_C6_url_joining :
    request_url default_base_url "chat/completions"
        = "https://api.synapsai.cloud/v1/chat/completions"
    ∧ async_stream_url default_base_url "chat/completions"
        = "https://api.synapsai.cloud/v1/chat/completions"
    ∧ (∀ base endpoint,
        build_url base endpoint = rstripSlash base ++ "/" ++ lstripSlash endpoint)
    ∧ sync_stream_url default_base_url "chat/completions"
        = "https://api.synapsai.cloud/v1chat/completions"
    ∧ sync_stream_url default_base_url "chat/completions"
        ≠ build_url default_base_url "chat/completions" := by
  refine ⟨rfl, rfl, fun base endpoint => rfl, rfl, by decide⟩

/-- C7 counterexample: the blocking and concurrent variants do not issue
requests to the same URLs — on the endpoint the chat resource passes when
streaming, the two stream URLs differ. -/
theorem spec_C7_equivalence_counterexample :
    sync_stream_url default_base_url "chat/completions"
      ≠ async_stream_url default_base_url "chat/completions" := by
  decide

/-- C7 (amended): for the same configuration, method and transport
responses, the blocking and concurrent request executors make the same
attempts, sleep at the same points and produce the same result, and the two
stream decoders yield the same events with the same terminal result;
non-streaming requests go to the same build_url-joined URL in both
variants, but the blocking stream URL is the plain concatenation, so the
two streaming URLs agree exactly when the endpoint equals a single slash
followed by its slash-stripped remainder. -/
theorem spec_C7_equivalence_amended :
    (∀ (method : String) (mr : Nat) (t : Nat → AttemptOutcome),
      sync_request method mr t = async_request method mr t)
  ∧ (∀ (mr : Nat) (t : Nat → StreamAttempt) (parse : String → Option Json),
      sync_stream mr t parse = async_stream mr t parse)
  ∧ (∀ base endpoint, request_url base endpoint = build_url base endpoint
      ∧ async_stream_url base endpoint = build_url base endpoint
      ∧ sync_stream_url base endpoint = base ++ endpoint)
  ∧ (∀ base endpoint, rstripSlash base = base →
      (sync_stream_url base endpoint = async_stream_url base endpoint
        ↔ endpoint = "/" ++ lstripSlash endpoint)) := by
  refine ⟨?_, ?_, ?_, ?_⟩
  · intro method mr t
    exact requestLoop_eq_async method mr t mr 0 none none
  · intro mr t parse
    exact streamLoop_eq_async mr t parse mr 0
  · intro base endpoint
    exact ⟨rfl, rfl, rfl⟩
  · intro base endpoint hb
    have h1 : async_stream_url base endpoint
        = base ++ ("/" ++ lstripSlash endpoint) := by
      show build_url base endpoint = _
      unfold build_url
      rw [hb, String.append_assoc]
    rw [h1]
    exact string_append_right_inj base endpoint ("/" ++ lstripSlash endpoint)

theorem spec_C7_equivalence_amended_witness :
    (sync_request "GET" 2 (fun _ => AttemptOutcome.raised ⟨.requestError, "net down"⟩)
       = async_request "GET" 2 (fun _ => AttemptOutcome.raised ⟨.requestError, "net down"⟩))
  ∧ (rstripSlash "https://api.synapsai.cloud/v1" = "https://api.synapsai.cloud/v1")
  ∧ (sync_stream_url "https://api.synapsai.cloud/v1" "/chat"
       = async_stream_url "https://api.synapsai.cloud/v1" "/chat"
     ↔ "/chat" = "/" ++ lstripSlash "/chat") :=
  ⟨spec_C7_equivalence_amended.1 "GET" 2
     (fun _ => AttemptOutcome.raised ⟨.requestError, "net down"⟩),
   by decide,
   spec_C7_equivalence_amended.2.2.2 "https://api.synapsai.cloud/v1" "/chat" (by decide)⟩

/-- C9: construction fails with an AuthenticationError exactly when neither
the api_key argument nor the environment fallback supplies a credential;
with a credential available it succeeds, and on every path the constructor
is a pure function of its arguments that consults no transport, so no
network call is made. -/
theorem spec_C9_credential_required :
    ∀ (api_key env_api_key base_url env_base_url : Option String)
      (timeout : ℚ) (max_retries : Int)
      (headers : Option (List (String × String))),
      (api_key = none → env_api_key = none →
        ∃ msg, base_client_init api_key env_api_key base_url env_base_url
          timeout max_retries headers = .error (.authenticationError msg))
    ∧ (∀ k, api_key = some k ∨ (api_key = none ∧ env_api_key = some k) →
        ∃ cfg, base_client_init api_key env_api_key base_url env_base_url
          timeout max_retries headers = .ok cfg ∧ cfg.api_key = k) := by
  intro ka ek b eb t mr h
  constructor
  · intro h1 h2
    subst h1; subst h2
    exact ⟨_, rfl⟩
  · intro k hk
    rcases hk with hk | ⟨hk1, hk2⟩
    · subst hk
      exact ⟨_, rfl, rfl⟩
    · subst hk1; subst hk2
      exact ⟨_, rfl, rfl⟩

theorem spec_C9_credential_required_witness :
    (∃ msg, base_client_init none none none none 300 3 none
       = .error (.authenticationError msg))
  ∧ (∃ cfg, base_client_init (some "sk-test") none none none 300 3 none
       = .ok cfg ∧ cfg.api_key = "sk-test") :=
  ⟨(spec_C9_credential_required none none none none 300 3 none).1 rfl rfl,
   (spec_C9_credential_required (some "sk-test") none none none 300 3 none).2
     "sk-test" (Or.inl rfl)⟩

/-- C10: a falsy json_data, data or files argument (None or the empty
dict) attaches no corresponding key to the outgoing request kwargs, in both
variants (which build identical kwargs apart from the blocking stream
flag), while build_request drops exactly the entries whose value is None,
keeping falsy non-None values such as 0, False and the empty list. -/
theorem spec_C10_payload_filtering :
    (∀ (method url : String) (timeout : ℚ)
       (json_data data files : Option PyDict) (stream : Bool),
      ((sync_base_kwargs method url timeout json_data data files stream).json = none
        ↔ (json_data = none ∨ json_data = some []))
      ∧ ((sync_base_kwargs method url timeout json_data data files stream).data = none
        ↔ (data = none ∨ data = some []))
      ∧ ((sync_base_kwargs method url timeout json_data data files stream).files = none
        ↔ (files = none ∨ files = some []))
      ∧ async_base_kwargs method url timeout json_data data files
          = sync_base_kwargs method url timeout json_data data files false)
  ∧ (∀ (kwargs : List (String × Json)) (k : String) (v : Json),
      (k, v) ∈ build_request kwargs ↔ ((k, v) ∈ kwargs ∧ v.isNull = false))
  ∧ build_request [("model", .str "m"), ("n", .num 0), ("echo", .bool false),
      ("stop", .arr []), ("user", .null)]
      = [("model", .str "m"), ("n", .num 0), ("echo", .bool false),
         ("stop", .arr [])] := by
  refine ⟨?_, ?_, rfl⟩
  · intro method url timeout jd d f s
    rcases jd with _ | (_ | ⟨p1, l1⟩) <;>
      rcases d with _ | (_ | ⟨p2, l2⟩) <;>
        rcases f with _ | (_ | ⟨p3, l3⟩) <;>
          cases s <;>
            simp [sync_base_kwargs, async_base_kwargs, truthyDict]
  · intro kwargs k v
    simp [build_request, List.mem_filter]
